import Mathlib

/-!
Shallow embedding of the monthly aggregate state machine of the immiwatch
repository (scripts/update_monthly_report.py, scripts/webhook_handler.py,
scripts/current_monthly_report_manager.py, and the ee-draw-checker lambda),
with proofs settling the spec claims about it.

Python integers are unbounded, so counters are modelled as `Int` (webhook
payloads may carry negative numbers, nothing in the code prevents it).
Dictionaries with a fixed key set are modelled as structures; the two
accepted shapes of `merge_draw_data`'s second argument (with or without a
`"body"` key) are modelled as a sum type.
-/

namespace ImmiWatch

/-- The `current_data` / `updated_data` dictionary of
`MonthlyReportUpdater.extract_current_data` / `merge_draw_data`
(update_monthly_report.py lines 77-93): the month bucket's aggregate state. -/
structure CurrentData where
  total_itas : Int
  cec_itas : Int
  pnp_itas : Int
  fsw_itas : Int
  fst_itas : Int
  category_based_total : Int
  french_speaking : Int
  healthcare : Int
  stem : Int
  trade : Int
  education : Int
  agriculture : Int
  draw_count : Int
  latest_draw_date : String
  latest_crs : Int
  deriving Repr, DecidableEq

/-- The all-zero aggregate state, as produced by `extract_current_data`'s
initialisation (lines 77-93) and by
`CurrentMonthlyReportManager.create_initial_monthly_data`'s numeric fields. -/
def zeroData : CurrentData :=
  { total_itas := 0, cec_itas := 0, pnp_itas := 0, fsw_itas := 0, fst_itas := 0
  , category_based_total := 0, french_speaking := 0, healthcare := 0, stem := 0
  , trade := 0, education := 0, agriculture := 0, draw_count := 0
  , latest_draw_date := "", latest_crs := 0 }

/-- The `body` of a Lambda-format webhook payload as read by
`merge_draw_data` (update_monthly_report.py lines 117-121): `Program`,
`Invitation`, `Score`, `draw.date.most.recent`, `Draw Number`. -/
structure LambdaBody where
  program : String
  invitation : Int
  score : Int
  drawDate : String
  drawNumber : Int
  deriving Repr, DecidableEq

/-- An old-format ("fallback") draw-data record as read by `merge_draw_data`
(update_monthly_report.py lines 167-185). -/
structure OldDraw where
  itas : Int
  cec_itas : Int
  pnp_itas : Int
  fsw_itas : Int
  fst_itas : Int
  category_based_total : Int
  french_speaking : Int
  healthcare : Int
  stem : Int
  trade : Int
  education : Int
  agriculture : Int
  draw_date : String
  crs : Int
  deriving Repr, DecidableEq

/-- The two shapes accepted by `merge_draw_data`: a dict containing a
`"body"` key (Lambda webhook format) or any other dict (old format). -/
inductive NewDrawData where
  | lambdaFormat (body : LambdaBody)
  | oldFormat (d : OldDraw)
  deriving Repr, DecidableEq

/-- `MonthlyReportUpdater.merge_draw_data` (update_monthly_report.py lines
110-187), translated branch by branch.  The Lambda branch dispatches on the
exact string held in `body["Program"]`; a program string matching none of
the ten known codes falls through the `elif` chain and adds to no
invitation field, after which `draw_count`, `latest_draw_date` and
`latest_crs` are still updated. -/
def merge_draw_data (current_data : CurrentData) (new_draw_data : NewDrawData) :
    CurrentData :=
  match new_draw_data with
  | .lambdaFormat body =>
      let program := body.program
      let invitations := body.invitation
      let d :=
        if program = "EE-PNP" then
          { current_data with
            pnp_itas := current_data.pnp_itas + invitations
            total_itas := current_data.total_itas + invitations }
        else if program = "EE-CEC" then
          { current_data with
            cec_itas := current_data.cec_itas + invitations
            total_itas := current_data.total_itas + invitations }
        else if program = "EE-FSW" then
          { current_data with
            fsw_itas := current_data.fsw_itas + invitations
            total_itas := current_data.total_itas + invitations }
        else if program = "EE-FST" then
          { current_data with
            fst_itas := current_data.fst_itas + invitations
            total_itas := current_data.total_itas + invitations }
        else if program = "EE-Health" then
          { current_data with
            healthcare := current_data.healthcare + invitations
            category_based_total := current_data.category_based_total + invitations
            total_itas := current_data.total_itas + invitations }
        else if program = "EE-French" then
          { current_data with
            french_speaking := current_data.french_speaking + invitations
            category_based_total := current_data.category_based_total + invitations
            total_itas := current_data.total_itas + invitations }
        else if program = "EE-Trade" then
          { current_data with
            trade := current_data.trade + invitations
            category_based_total := current_data.category_based_total + invitations
            total_itas := current_data.total_itas + invitations }
        else if program = "EE-Education" then
          { current_data with
            education := current_data.education + invitations
            category_based_total := current_data.category_based_total + invitations
            total_itas := current_data.total_itas + invitations }
        else if program = "EE-Agriculture" then
          { current_data with
            agriculture := current_data.agriculture + invitations
            category_based_total := current_data.category_based_total + invitations
            total_itas := current_data.total_itas + invitations }
        else if program = "EE-STEM" then
          { current_data with
            stem := current_data.stem + invitations
            category_based_total := current_data.category_based_total + invitations
            total_itas := current_data.total_itas + invitations }
        else current_data
      { d with
        draw_count := d.draw_count + 1
        latest_draw_date := body.drawDate
        latest_crs := body.score }
  | .oldFormat nd =>
      { current_data with
        total_itas := current_data.total_itas + nd.itas
        cec_itas := current_data.cec_itas + nd.cec_itas
        pnp_itas := current_data.pnp_itas + nd.pnp_itas
        fsw_itas := current_data.fsw_itas + nd.fsw_itas
        fst_itas := current_data.fst_itas + nd.fst_itas
        category_based_total :=
          current_data.category_based_total + nd.category_based_total
        french_speaking := current_data.french_speaking + nd.french_speaking
        healthcare := current_data.healthcare + nd.healthcare
        stem := current_data.stem + nd.stem
        trade := current_data.trade + nd.trade
        education := current_data.education + nd.education
        agriculture := current_data.agriculture + nd.agriculture
        draw_count := current_data.draw_count + 1
        latest_draw_date := nd.draw_date
        latest_crs := nd.crs }

/-- The four program codes whose `elif` arm adds only to the program field
and the grand total (update_monthly_report.py lines 124-135). -/
def programCodes : List String := ["EE-PNP", "EE-CEC", "EE-FSW", "EE-FST"]

/-- The six category codes whose `elif` arm also adds to
`category_based_total` (update_monthly_report.py lines 136-159). -/
def categoryCodes : List String :=
  ["EE-Health", "EE-French", "EE-Trade", "EE-Education", "EE-Agriculture", "EE-STEM"]

/-- Sum of the four per-program fields of a bucket. -/
def programSum (d : CurrentData) : Int :=
  d.cec_itas + d.pnp_itas + d.fsw_itas + d.fst_itas

/-- Sum of the six per-category fields of a bucket. -/
def categorySum (d : CurrentData) : Int :=
  d.french_speaking + d.healthcare + d.stem + d.trade + d.education + d.agriculture

/-- The sum-consistency invariant of the spec: the grand total is the sum of
the program fields plus the category fields, and the category subtotal is
the sum of the category fields. -/
def SumInvariant (d : CurrentData) : Prop :=
  d.total_itas = programSum d + categorySum d ∧
  d.category_based_total = categorySum d

instance (d : CurrentData) : Decidable (SumInvariant d) := by
  unfold SumInvariant; infer_instance

/-- A scalar value of a webhook JSON payload, as relevant to the numeric
type checks of `WebhookHandler.validate_webhook_data`: an integer or a
string.  (Python's `isinstance(x, (int, float))` test is modelled as "is an
integer": the JSON scalars these payloads carry are integers or strings,
and no claim depends on float values.) -/
inductive PyVal where
  | int (n : Int)
  | str (s : String)
  deriving Repr, DecidableEq

/-- `isinstance(x, (int, float))` on a payload scalar
(webhook_handler.py line 82). -/
def isNumericPy : PyVal → Bool
  | .int _ => true
  | .str _ => false

/-- Leap-year rule of the Gregorian calendar as implemented by Python's
`datetime`. -/
def leapYear (y : Nat) : Bool :=
  y % 4 = 0 && (y % 100 ≠ 0 || y % 400 = 0)

/-- Number of days in a calendar month, as in Python's `datetime`. -/
def daysInMonth (y m : Nat) : Nat :=
  if m = 2 then (if leapYear y then 29 else 28)
  else if m = 4 ∨ m = 6 ∨ m = 9 ∨ m = 11 then 30
  else 31

/-- Split a character list on `-` separators (the behaviour of Python's
`split("-")` / Lean's `String.splitOn "-"`, written structurally). -/
def splitDash : List Char → List (List Char)
  | [] => [[]]
  | c :: rest =>
      if c = '-' then [] :: splitDash rest
      else
        match splitDash rest with
        | g :: gs => (c :: g) :: gs
        | [] => [[c]]

/-- One or more decimal digits. -/
def isDigits (cs : List Char) : Bool :=
  !cs.isEmpty && cs.all (fun c => c.isDigit)

/-- Numeric value of a digit group (Python `int(...)` on the digits). -/
def natOfDigits (cs : List Char) : Nat :=
  cs.foldl (fun a c => 10 * a + (c.toNat - 48)) 0

/-- Model of `datetime.strptime(s, "%Y-%m-%d")` succeeding: three
dash-separated digit groups, a four-digit year, a one-or-two-digit month in
1..12 and a one-or-two-digit day that is a real day of that month. -/
def strptime_ymd_ok (s : String) : Bool :=
  match splitDash s.toList with
  | [ys, ms, ds] =>
      isDigits ys && isDigits ms && isDigits ds &&
      ys.length = 4 && ms.length ≤ 2 && ds.length ≤ 2 &&
      (let y := natOfDigits ys
       let m := natOfDigits ms
       let d := natOfDigits ds
       1 ≤ y && 1 ≤ m && m ≤ 12 && 1 ≤ d && d ≤ daysInMonth y m)
  | _ => false

deriving instance DecidableEq for Except

/-- The `body` of a webhook payload as seen by
`WebhookHandler.validate_webhook_data`, with all five required keys
present (the required-field presence check of lines 65-71 is vacuous on
this shape) and the date field already a string. -/
structure WebhookBody where
  program : String
  drawDate : String
  score : PyVal
  invitation : PyVal
  drawNumber : PyVal
  deriving Repr, DecidableEq

/-- `WebhookHandler.validate_webhook_data` (webhook_handler.py lines
58-85) on a body with all required keys present: first the
`strptime("%Y-%m-%d")` date check, then the `isinstance(x, (int, float))`
check on `Score`, `Invitation`, `Draw Number` in that order.  No coercion
of strings to numbers happens anywhere in it. -/
def validate_webhook_data (body : WebhookBody) : Except String Unit :=
  if ¬ strptime_ymd_ok body.drawDate then
    .error ("Invalid date format: " ++ body.drawDate ++ ". Use YYYY-MM-DD")
  else if ¬ isNumericPy body.score then .error "Field Score must be numeric"
  else if ¬ isNumericPy body.invitation then .error "Field Invitation must be numeric"
  else if ¬ isNumericPy body.drawNumber then .error "Field Draw Number must be numeric"
  else .ok ()

/-- Result shape of `WebhookHandler.parse_program_category`. -/
structure ProgramInfo where
  ptype : String
  programField : Option String
  categoryField : Option String
  deriving Repr, DecidableEq

/-- `WebhookHandler.parse_program_category` (webhook_handler.py lines
92-110): exact dictionary lookup on the program string, with the
`.get` default `{"type": "unknown", "program": None, "category": None}`
for anything else. -/
def parse_program_category (program : String) : ProgramInfo :=
  if program = "EE-PNP" then ⟨"program-based", some "pnp", none⟩
  else if program = "EE-CEC" then ⟨"program-based", some "cec", none⟩
  else if program = "EE-FSW" then ⟨"program-based", some "fsw", none⟩
  else if program = "EE-FST" then ⟨"program-based", some "fst", none⟩
  else if program = "EE-Health" then ⟨"category-based", none, some "healthcare"⟩
  else if program = "EE-French" then ⟨"category-based", none, some "french_speaking"⟩
  else if program = "EE-Trade" then ⟨"category-based", none, some "trade"⟩
  else if program = "EE-Education" then ⟨"category-based", none, some "education"⟩
  else if program = "EE-Agriculture" then ⟨"category-based", none, some "agriculture"⟩
  else if program = "EE-STEM" then ⟨"category-based", none, some "stem"⟩
  else ⟨"unknown", none, none⟩

/-- Python `str(x)` on a payload scalar. -/
def pyStr : PyVal → String
  | .int n => toString n
  | .str s => s

/-- Python `s.replace(",", "")`: for a one-character pattern this is
exactly the removal of every comma. -/
def stripCommas (s : String) : String :=
  String.mk (s.toList.filter (fun c => c ≠ ','))

/-- The `Invitation` field as constructed by the ee-draw-checker lambda
(lambda_function.py line 41): `str(latest_draw.get("drawSize", "0")).replace(",", "")`
— always a string, with commas stripped, never converted to a number. -/
def lambda_invitation_field (drawSize : PyVal) : PyVal :=
  .str (stripCommas (pyStr drawSize))

/-- A calendar date as carried by Python's `datetime` (time fields
elided). -/
structure SimpleDate where
  year : Nat
  month : Nat
  day : Nat
  deriving Repr, DecidableEq

/-- The following calendar day, as computed by Python date arithmetic. -/
def nextDay (d : SimpleDate) : SimpleDate :=
  if d.day < daysInMonth d.year d.month then ⟨d.year, d.month, d.day + 1⟩
  else if d.month < 12 then ⟨d.year, d.month + 1, 1⟩
  else ⟨d.year + 1, 1, 1⟩

/-- `date + timedelta(days = n)`. -/
def addDays (d : SimpleDate) : Nat → SimpleDate
  | 0 => d
  | n + 1 => addDays (nextDay d) n

/-- Python's `f"{m:02d}"` for the month numbers in play. -/
def pad2 (n : Nat) : String :=
  if n < 10 then "0" ++ toString n else toString n

/-- The `f"{year}-{month:02d}"` month-bucket identifier used throughout
current_monthly_report_manager.py. -/
def monthKey (y m : Nat) : String :=
  toString y ++ "-" ++ pad2 m

/-- `CurrentMonthlyReportManager.get_next_month_info`
(current_monthly_report_manager.py lines 64-89), reduced to the month
string it produces: on the first day of the month the target is `now`
itself, otherwise `now.replace(day=1) + timedelta(days=32)` then
`.replace(day=1)` — the first day of the following month. -/
def get_next_month_str (d : SimpleDate) : String :=
  if d.day = 1 then monthKey d.year d.month
  else
    let target := addDays ⟨d.year, d.month, 1⟩ 32
    monthKey target.year target.month

/-- A wall-clock instant as read off `datetime.now()` by the manager
(fields beyond the hour are never consulted). -/
structure DateTime where
  year : Nat
  month : Nat
  day : Nat
  hour : Nat
  deriving Repr, DecidableEq

/-- The date part of an instant. -/
def DateTime.toDate (t : DateTime) : SimpleDate :=
  ⟨t.year, t.month, t.day⟩

/-- The persisted state owned by `CurrentMonthlyReportManager`: the
`current_monthly_report.json` pointer (the designated month string, absent
when the file does not exist) and, for each month string, the aggregate
state of that month's generated report document.  The store is an
association list read through `List.lookup`; writing prepends, so the most
recent write shadows older entries. -/
structure MgrState where
  pointer : Option String
  store : List (String × CurrentData)
  deriving Repr, DecidableEq

/-- Overwrite one bucket document in the store. -/
def insertStore (k : String) (v : CurrentData) (st : List (String × CurrentData)) :
    List (String × CurrentData) :=
  (k, v) :: st

/-- `CurrentMonthlyReportManager.check_and_create_next_month_report`
(current_monthly_report_manager.py lines 279-332): when `now.day == 1 and
now.hour < 6`, it unconditionally builds fresh all-zero initial data for
the upcoming month (`create_initial_monthly_data`), regenerates that
month's report document from it, and rewrites the pointer designation —
with no check that the pointer is not already there and no check that the
bucket already exists.  In every other case it only prints
`no_transition_needed` and changes nothing.  The returned string is the
`status` field of the result dict. -/
def check_and_create_next_month_report (now : DateTime) (st : MgrState) :
    MgrState × String :=
  let next := get_next_month_str now.toDate
  if now.day = 1 ∧ now.hour < 6 then
    ({ pointer := some next, store := insertStore next zeroData st.store },
     "month_transition")
  else (st, "no_transition_needed")

/-- `CurrentMonthlyReportManager.get_current_report_info`
(current_monthly_report_manager.py lines 223-238): if the pointer file
holds a designation it is returned exactly as stored, with no comparison
against the current calendar month; only when it is absent does
`create_current_monthly_report` run, which designates the current month —
creating its report document from all-zero initial data only if the
document does not already exist. -/
def get_current_report_info (now : DateTime) (st : MgrState) :
    String × MgrState :=
  match st.pointer with
  | some ms => (ms, st)
  | none =>
      let ms := monthKey now.year now.month
      match List.lookup ms st.store with
      | some _ => (ms, { st with pointer := some ms })
      | none =>
          (ms, { pointer := some ms, store := insertStore ms zeroData st.store })

/-- The literal part of the pattern `data-target="(\d+)"` scanned by
`MonthlyReportUpdater.extract_current_data`. -/
def targetLit : List Char := "data-target=\"".toList

/-- Fuel-indexed scanner implementing `re.findall(r'data-target="(\d+)"', s)`:
at each position, if the literal prefix matches and is followed by one or
more digits and a closing quote, record the digit group's value and resume
after the match; otherwise advance one character.  Fuel bounds the
recursion; one unit is spent per position examined. -/
def scanTargetsAux : Nat → List Char → List Nat
  | 0, _ => []
  | _, [] => []
  | fuel + 1, c :: rest =>
      let cs := c :: rest
      if targetLit.isPrefixOf cs then
        let tail := cs.drop targetLit.length
        let ds := tail.takeWhile (fun ch => ch.isDigit)
        let tail2 := tail.drop ds.length
        if ds ≠ [] ∧ tail2.head? = some '"' then
          ds.foldl (fun a ch => 10 * a + (ch.toNat - 48)) 0 ::
            scanTargetsAux fuel (tail2.drop 1)
        else scanTargetsAux fuel rest
      else scanTargetsAux fuel rest

/-- `re.findall(r'data-target="(\d+)"', content)` as a list of the captured
numbers (update_monthly_report.py line 96). -/
def findTargets (content : String) : List Nat :=
  scanTargetsAux content.length content.toList

/-- `MonthlyReportUpdater.extract_current_data` (update_monthly_report.py
lines 74-108): start from the all-zero dictionary; when the report content
yields at least four `data-target` matches, populate `total_itas`,
`healthcare`, `pnp_itas`, `cec_itas` from the first four matches in that
order; every other field keeps its zero. -/
def extract_current_data (report_content : String) : CurrentData :=
  match findTargets report_content with
  | t :: h :: p :: c :: _ =>
      { zeroData with
        total_itas := (t : Int), healthcare := (h : Int)
        pnp_itas := (p : Int), cec_itas := (c : Int) }
  | _ => zeroData

/-- Normal form of the Lambda branch of `merge_draw_data`: every field of
the result, written as the old field plus a contribution determined by the
event's program string. -/
theorem merge_lambda_eq (c : CurrentData) (b : LambdaBody) :
    merge_draw_data c (.lambdaFormat b) =
      { total_itas := c.total_itas +
          (if b.program ∈ programCodes ∨ b.program ∈ categoryCodes then b.invitation else 0)
      , cec_itas := c.cec_itas + (if b.program = "EE-CEC" then b.invitation else 0)
      , pnp_itas := c.pnp_itas + (if b.program = "EE-PNP" then b.invitation else 0)
      , fsw_itas := c.fsw_itas + (if b.program = "EE-FSW" then b.invitation else 0)
      , fst_itas := c.fst_itas + (if b.program = "EE-FST" then b.invitation else 0)
      , category_based_total := c.category_based_total +
          (if b.program ∈ categoryCodes then b.invitation else 0)
      , french_speaking := c.french_speaking +
          (if b.program = "EE-French" then b.invitation else 0)
      , healthcare := c.healthcare + (if b.program = "EE-Health" then b.invitation else 0)
      , stem := c.stem + (if b.program = "EE-STEM" then b.invitation else 0)
      , trade := c.trade + (if b.program = "EE-Trade" then b.invitation else 0)
      , education := c.education + (if b.program = "EE-Education" then b.invitation else 0)
      , agriculture := c.agriculture +
          (if b.program = "EE-Agriculture" then b.invitation else 0)
      , draw_count := c.draw_count + 1
      , latest_draw_date := b.drawDate
      , latest_crs := b.score } := by
  obtain ⟨p, inv, sc, dd, dn⟩ := b
  by_cases h₁ : p = "EE-PNP"
  · subst h₁; simp [merge_draw_data, programCodes, categoryCodes]
  by_cases h₂ : p = "EE-CEC"
  · subst h₂; simp [merge_draw_data, programCodes, categoryCodes]
  by_cases h₃ : p = "EE-FSW"
  · subst h₃; simp [merge_draw_data, programCodes, categoryCodes]
  by_cases h₄ : p = "EE-FST"
  · subst h₄; simp [merge_draw_data, programCodes, categoryCodes]
  by_cases h₅ : p = "EE-Health"
  · subst h₅; simp [merge_draw_data, programCodes, categoryCodes]
  by_cases h₆ : p = "EE-French"
  · subst h₆; simp [merge_draw_data, programCodes, categoryCodes]
  by_cases h₇ : p = "EE-Trade"
  · subst h₇; simp [merge_draw_data, programCodes, categoryCodes]
  by_cases h₈ : p = "EE-Education"
  · subst h₈; simp [merge_draw_data, programCodes, categoryCodes]
  by_cases h₉ : p = "EE-Agriculture"
  · subst h₉; simp [merge_draw_data, programCodes, categoryCodes]
  by_cases h₁₀ : p = "EE-STEM"
  · subst h₁₀; simp [merge_draw_data, programCodes, categoryCodes]
  simp [merge_draw_data, programCodes, categoryCodes, h₁, h₂, h₃, h₄, h₅, h₆, h₇, h₈, h₉, h₁₀]

/-- The grand-total contribution of an event splits into the ten per-field
contributions. -/
theorem total_delta_split (p : String) (inv : Int) :
    (if p ∈ programCodes ∨ p ∈ categoryCodes then inv else 0) =
      ((if p = "EE-CEC" then inv else 0) + (if p = "EE-PNP" then inv else 0) +
       (if p = "EE-FSW" then inv else 0) + (if p = "EE-FST" then inv else 0)) +
      ((if p = "EE-French" then inv else 0) + (if p = "EE-Health" then inv else 0) +
       (if p = "EE-STEM" then inv else 0) + (if p = "EE-Trade" then inv else 0) +
       (if p = "EE-Education" then inv else 0) + (if p = "EE-Agriculture" then inv else 0)) := by
  by_cases h₁ : p = "EE-PNP"
  · subst h₁; simp [programCodes, categoryCodes]
  by_cases h₂ : p = "EE-CEC"
  · subst h₂; simp [programCodes, categoryCodes]
  by_cases h₃ : p = "EE-FSW"
  · subst h₃; simp [programCodes, categoryCodes]
  by_cases h₄ : p = "EE-FST"
  · subst h₄; simp [programCodes, categoryCodes]
  by_cases h₅ : p = "EE-Health"
  · subst h₅; simp [programCodes, categoryCodes]
  by_cases h₆ : p = "EE-French"
  · subst h₆; simp [programCodes, categoryCodes]
  by_cases h₇ : p = "EE-Trade"
  · subst h₇; simp [programCodes, categoryCodes]
  by_cases h₈ : p = "EE-Education"
  · subst h₈; simp [programCodes, categoryCodes]
  by_cases h₉ : p = "EE-Agriculture"
  · subst h₉; simp [programCodes, categoryCodes]
  by_cases h₁₀ : p = "EE-STEM"
  · subst h₁₀; simp [programCodes, categoryCodes]
  simp [programCodes, categoryCodes, h₁, h₂, h₃, h₄, h₅, h₆, h₇, h₈, h₉, h₁₀]

/-- The category-subtotal contribution of an event splits into the six
per-category contributions. -/
theorem cat_delta_split (p : String) (inv : Int) :
    (if p ∈ categoryCodes then inv else 0) =
      (if p = "EE-French" then inv else 0) + (if p = "EE-Health" then inv else 0) +
      (if p = "EE-STEM" then inv else 0) + (if p = "EE-Trade" then inv else 0) +
      (if p = "EE-Education" then inv else 0) + (if p = "EE-Agriculture" then inv else 0) := by
  by_cases h₅ : p = "EE-Health"
  · subst h₅; simp [categoryCodes]
  by_cases h₆ : p = "EE-French"
  · subst h₆; simp [categoryCodes]
  by_cases h₇ : p = "EE-Trade"
  · subst h₇; simp [categoryCodes]
  by_cases h₈ : p = "EE-Education"
  · subst h₈; simp [categoryCodes]
  by_cases h₉ : p = "EE-Agriculture"
  · subst h₉; simp [categoryCodes]
  by_cases h₁₀ : p = "EE-STEM"
  · subst h₁₀; simp [categoryCodes]
  simp [categoryCodes, h₅, h₆, h₇, h₈, h₉, h₁₀]

/-- C1: for every bucket state satisfying the sum invariant and every valid
(non-negative invitation count) merged event, the bucket again satisfies
the sum invariant after `merge_draw_data`: `total_itas` equals the sum of
the program fields (`cec_itas`, `pnp_itas`, `fsw_itas`, `fst_itas`) plus
the category fields (`french_speaking`, `healthcare`, `stem`, `trade`,
`education`, `agriculture`), and `category_based_total` equals the sum of
the category fields. -/
theorem C1_merge_preserves_sum_invariant (c : CurrentData) (b : LambdaBody)
    (hinv : SumInvariant c) (hval : 0 ≤ b.invitation) :
    SumInvariant (merge_draw_data c (.lambdaFormat b)) := by
  obtain ⟨ht, hc⟩ := hinv
  rw [merge_lambda_eq]
  unfold SumInvariant programSum categorySum at *
  dsimp only
  rw [total_delta_split, cat_delta_split]
  constructor
  · rw [ht]; ring
  · rw [hc]; ring

/-- Witness for C1 at a concrete category-coded event merged into the
all-zero bucket. -/
theorem C1_merge_preserves_sum_invariant_witness :
    SumInvariant (merge_draw_data zeroData
      (.lambdaFormat ⟨"EE-Health", 4500, 470, "2025-08-10", 360⟩)) :=
  C1_merge_preserves_sum_invariant zeroData
    ⟨"EE-Health", 4500, 470, "2025-08-10", 360⟩ (by decide) (by decide)

/-- C2 counterexample: the claim says an event with the unrecognized label
`"Unknown-Stream-XYZ"` has its `invitationsIssued` added to an
uncategorized field and to `totalInvitations`; in the code no such field
exists and `total_itas` is left untouched (the 5 invitations are dropped),
so the merged total is 0, not 5. -/
theorem C2_counterexample :
    (merge_draw_data zeroData
      (.lambdaFormat ⟨"Unknown-Stream-XYZ", 5, 500, "2025-08-05", 350⟩)).total_itas = 0 ∧
    (merge_draw_data zeroData
      (.lambdaFormat ⟨"Unknown-Stream-XYZ", 5, 500, "2025-08-05", 350⟩)).total_itas ≠ 5 := by
  decide

/-- C2 as amended: for an event whose program label matches none of the ten
known codes, normalization returns the `unknown` mapping (never an error)
and merge never raises, but the invitations are added to no field at all —
not to `total_itas` either; only `draw_count`, `latest_draw_date` and
`latest_crs` change, and the sum invariant is preserved because the
invitation fields are untouched. -/
theorem C2_amended_unknown_label_dropped (c : CurrentData) (b : LambdaBody)
    (h1 : b.program ∉ programCodes) (h2 : b.program ∉ categoryCodes) :
    parse_program_category b.program = ⟨"unknown", none, none⟩ ∧
    merge_draw_data c (.lambdaFormat b) =
      { c with draw_count := c.draw_count + 1
             , latest_draw_date := b.drawDate, latest_crs := b.score } ∧
    (SumInvariant c → SumInvariant (merge_draw_data c (.lambdaFormat b))) := by
  simp only [programCodes, categoryCodes, List.mem_cons, List.not_mem_nil,
    or_false] at h1 h2
  push_neg at h1 h2
  obtain ⟨hA, hB, hC, hD⟩ := h1
  obtain ⟨hE, hF, hG, hH, hI, hJ⟩ := h2
  have hm : merge_draw_data c (.lambdaFormat b) =
      { c with draw_count := c.draw_count + 1
             , latest_draw_date := b.drawDate, latest_crs := b.score } := by
    rw [merge_lambda_eq]
    simp [programCodes, categoryCodes, hA, hB, hC, hD, hE, hF, hG, hH, hI, hJ]
  refine ⟨?_, hm, ?_⟩
  · simp [parse_program_category, hA, hB, hC, hD, hE, hF, hG, hH, hI, hJ]
  · intro hinv
    rw [hm]
    obtain ⟨ht, hc⟩ := hinv
    unfold SumInvariant programSum categorySum at *
    exact ⟨ht, hc⟩

/-- Witness for C2's amended statement at the spec's own example label. -/
theorem C2_amended_unknown_label_dropped_witness :
    merge_draw_data zeroData
        (.lambdaFormat ⟨"Unknown-Stream-XYZ", 3000, 475, "2025-08-06", 351⟩) =
      { zeroData with draw_count := 1
                    , latest_draw_date := "2025-08-06", latest_crs := 475 } ∧
    SumInvariant (merge_draw_data zeroData
      (.lambdaFormat ⟨"Unknown-Stream-XYZ", 3000, 475, "2025-08-06", 351⟩)) :=
  ⟨(C2_amended_unknown_label_dropped zeroData
      ⟨"Unknown-Stream-XYZ", 3000, 475, "2025-08-06", 351⟩
      (by decide) (by decide)).2.1,
   (C2_amended_unknown_label_dropped zeroData
      ⟨"Unknown-Stream-XYZ", 3000, 475, "2025-08-06", 351⟩
      (by decide) (by decide)).2.2 (by decide)⟩

/-- C3 counterexample: the claim says merging an event with
`invitationsIssued = -5` is rejected with `InvalidEvent` and leaves the
bucket unchanged; the code has no such check — the event is merged,
`pnp_itas` and `total_itas` become -5 and `draw_count` becomes 1, and
`validate_webhook_data` accepts the payload since -5 is numeric. -/
theorem C3_counterexample :
    merge_draw_data zeroData
        (.lambdaFormat ⟨"EE-PNP", -5, 726, "2025-08-05", 348⟩) ≠ zeroData ∧
    (merge_draw_data zeroData
        (.lambdaFormat ⟨"EE-PNP", -5, 726, "2025-08-05", 348⟩)).pnp_itas = -5 ∧
    (merge_draw_data zeroData
        (.lambdaFormat ⟨"EE-PNP", -5, 726, "2025-08-05", 348⟩)).total_itas = -5 := by
  decide

/-- C3 as amended: no non-negativity check exists anywhere on the path — a
`-5` event passes `validate_webhook_data` (which only checks the numeric
type) and `merge_draw_data` mutates every bucket with it like any other
event, subtracting 5 from the destination field and from `total_itas` and
incrementing `draw_count`. -/
theorem C3_amended_negative_event_merges (c : CurrentData) :
    (merge_draw_data c
        (.lambdaFormat ⟨"EE-PNP", -5, 726, "2025-08-05", 348⟩)).pnp_itas =
      c.pnp_itas - 5 ∧
    (merge_draw_data c
        (.lambdaFormat ⟨"EE-PNP", -5, 726, "2025-08-05", 348⟩)).total_itas =
      c.total_itas - 5 ∧
    (merge_draw_data c
        (.lambdaFormat ⟨"EE-PNP", -5, 726, "2025-08-05", 348⟩)).draw_count =
      c.draw_count + 1 ∧
    validate_webhook_data
        ⟨"EE-PNP", "2025-08-05", .int 726, .int (-5), .int 348⟩ = .ok () := by
  refine ⟨?_, ?_, ?_, by decide⟩ <;>
    simp [merge_lambda_eq, programCodes, categoryCodes] <;> ring

/-- C4 counterexample: the claim says that for every event with positive
invitations, re-merging the identical event makes totals increase again;
for an event with an unrecognized program label (invitations 7 > 0) the
second merge leaves `total_itas` exactly where the first merge left it. -/
theorem C4_counterexample :
    (0 : Int) < 7 ∧
    (merge_draw_data
        (merge_draw_data zeroData
          (.lambdaFormat ⟨"Unknown-Stream-XYZ", 7, 500, "2025-08-05", 350⟩))
        (.lambdaFormat ⟨"Unknown-Stream-XYZ", 7, 500, "2025-08-05", 350⟩)).total_itas =
      (merge_draw_data zeroData
        (.lambdaFormat ⟨"Unknown-Stream-XYZ", 7, 500, "2025-08-05", 350⟩)).total_itas := by
  decide

/-- C4 as amended: re-delivery is not de-duplicated and is only total-
increasing for recognized codes — for every bucket and every event with a
recognized program/category code and positive invitations, merging the
identical event a second time adds the invitations to `total_itas` again
(strictly increasing it) and increments `draw_count` again; and
`merge_draw_data` never reads `Draw Number`, so no de-duplication by
sequence number can occur at this layer. -/
theorem C4_amended_redelivery_not_deduplicated (c : CurrentData) (b : LambdaBody)
    (hmem : b.program ∈ programCodes ∨ b.program ∈ categoryCodes)
    (hpos : 0 < b.invitation) :
    (merge_draw_data (merge_draw_data c (.lambdaFormat b))
        (.lambdaFormat b)).total_itas =
      (merge_draw_data c (.lambdaFormat b)).total_itas + b.invitation ∧
    (merge_draw_data c (.lambdaFormat b)).total_itas <
      (merge_draw_data (merge_draw_data c (.lambdaFormat b))
        (.lambdaFormat b)).total_itas ∧
    (merge_draw_data (merge_draw_data c (.lambdaFormat b))
        (.lambdaFormat b)).draw_count =
      (merge_draw_data c (.lambdaFormat b)).draw_count + 1 ∧
    (∀ n : Int, merge_draw_data c (.lambdaFormat { b with drawNumber := n }) =
      merge_draw_data c (.lambdaFormat b)) := by
  refine ⟨?_, ?_, ?_, ?_⟩
  · simp [merge_lambda_eq, hmem]
  · simp [merge_lambda_eq, hmem]
    omega
  · simp [merge_lambda_eq]
  · intro n
    simp [merge_lambda_eq]

/-- Witness for C4's amended statement: the sample PNP draw of the repo's
own webhook test, re-delivered. -/
theorem C4_amended_redelivery_not_deduplicated_witness :
    (merge_draw_data
        (merge_draw_data zeroData
          (.lambdaFormat ⟨"EE-PNP", 277, 726, "2025-08-05", 348⟩))
        (.lambdaFormat ⟨"EE-PNP", 277, 726, "2025-08-05", 348⟩)).total_itas =
      (merge_draw_data zeroData
        (.lambdaFormat ⟨"EE-PNP", 277, 726, "2025-08-05", 348⟩)).total_itas + 277 ∧
    (merge_draw_data zeroData
        (.lambdaFormat ⟨"EE-PNP", 277, 726, "2025-08-05", 348⟩)).total_itas <
      (merge_draw_data
        (merge_draw_data zeroData
          (.lambdaFormat ⟨"EE-PNP", 277, 726, "2025-08-05", 348⟩))
        (.lambdaFormat ⟨"EE-PNP", 277, 726, "2025-08-05", 348⟩)).total_itas ∧
    (merge_draw_data
        (merge_draw_data zeroData
          (.lambdaFormat ⟨"EE-PNP", 277, 726, "2025-08-05", 348⟩))
        (.lambdaFormat ⟨"EE-PNP", 277, 726, "2025-08-05", 348⟩)).draw_count =
      (merge_draw_data zeroData
        (.lambdaFormat ⟨"EE-PNP", 277, 726, "2025-08-05", 348⟩)).draw_count + 1 ∧
    (∀ n : Int, merge_draw_data zeroData
        (.lambdaFormat { LambdaBody.mk "EE-PNP" 277 726 "2025-08-05" 348 with
          drawNumber := n }) =
      merge_draw_data zeroData
        (.lambdaFormat ⟨"EE-PNP", 277, 726, "2025-08-05", 348⟩)) :=
  C4_amended_redelivery_not_deduplicated zeroData
    ⟨"EE-PNP", 277, 726, "2025-08-05", 348⟩ (by decide) (by decide)

/-- C5: merging a program-coded event and a category-coded event in either
order yields the same per-program fields, per-category fields,
`category_based_total`, `total_itas` and `draw_count` (only the
last-write-wins `latest_draw_date` / `latest_crs` are order-sensitive,
and they are outside the claim). -/
theorem C5_merge_order_independent (c : CurrentData) (e1 e2 : LambdaBody)
    (h1 : e1.program ∈ programCodes) (h2 : e2.program ∈ categoryCodes) :
    let A := merge_draw_data (merge_draw_data c (.lambdaFormat e1)) (.lambdaFormat e2)
    let B := merge_draw_data (merge_draw_data c (.lambdaFormat e2)) (.lambdaFormat e1)
    A.total_itas = B.total_itas ∧ A.cec_itas = B.cec_itas ∧
    A.pnp_itas = B.pnp_itas ∧ A.fsw_itas = B.fsw_itas ∧
    A.fst_itas = B.fst_itas ∧ A.category_based_total = B.category_based_total ∧
    A.french_speaking = B.french_speaking ∧ A.healthcare = B.healthcare ∧
    A.stem = B.stem ∧ A.trade = B.trade ∧ A.education = B.education ∧
    A.agriculture = B.agriculture ∧ A.draw_count = B.draw_count := by
  intro A B
  simp only [A, B, merge_lambda_eq]
  refine ⟨?_, ?_, ?_, ?_, ?_, ?_, ?_, ?_, ?_, ?_, ?_, ?_, ?_⟩ <;> dsimp <;> ring

/-- Witness for C5 at the spec's end-to-end scenario events (a PNP draw and
a healthcare draw). -/
theorem C5_merge_order_independent_witness :
    let A := merge_draw_data
      (merge_draw_data zeroData (.lambdaFormat ⟨"EE-PNP", 3000, 475, "2025-08-05", 348⟩))
      (.lambdaFormat ⟨"EE-Health", 4500, 470, "2025-08-10", 349⟩)
    let B := merge_draw_data
      (merge_draw_data zeroData (.lambdaFormat ⟨"EE-Health", 4500, 470, "2025-08-10", 349⟩))
      (.lambdaFormat ⟨"EE-PNP", 3000, 475, "2025-08-05", 348⟩)
    A.total_itas = B.total_itas ∧ A.cec_itas = B.cec_itas ∧
    A.pnp_itas = B.pnp_itas ∧ A.fsw_itas = B.fsw_itas ∧
    A.fst_itas = B.fst_itas ∧ A.category_based_total = B.category_based_total ∧
    A.french_speaking = B.french_speaking ∧ A.healthcare = B.healthcare ∧
    A.stem = B.stem ∧ A.trade = B.trade ∧ A.education = B.education ∧
    A.agriculture = B.agriculture ∧ A.draw_count = B.draw_count :=
  C5_merge_order_independent zeroData
    ⟨"EE-PNP", 3000, 475, "2025-08-05", 348⟩
    ⟨"EE-Health", 4500, 470, "2025-08-10", 349⟩ (by decide) (by decide)

/-- C9: the claim says numeric fields are coerced from string-or-number
into integers (stripping commas) and accepted; in the code the
ee-draw-checker lambda itself produces `Invitation` as a comma-stripped
*string*, while `validate_webhook_data` rejects any string with "must be
numeric" — so the pipeline rejects its own producer's payloads ("3,000"
and "277" alike), and only genuinely numeric JSON values are accepted. -/
theorem C9_validator_rejects_producer_strings :
    lambda_invitation_field (.str "3,000") = .str "3000" ∧
    lambda_invitation_field (.int 277) = .str "277" ∧
    validate_webhook_data ⟨"EE-PNP", "2025-08-05", .int 726, .str "3000", .int 348⟩ =
      .error "Field Invitation must be numeric" ∧
    validate_webhook_data ⟨"EE-PNP", "2025-08-05", .int 726, .str "277", .int 348⟩ =
      .error "Field Invitation must be numeric" ∧
    validate_webhook_data ⟨"EE-PNP", "2025-08-05", .int 726, .int 277, .int 348⟩ =
      .ok () := by
  refine ⟨rfl, rfl, ?_, ?_, ?_⟩ <;> decide

/-- Every month has at least 28 days. -/
theorem daysInMonth_ge (y m : Nat) : 28 ≤ daysInMonth y m := by
  unfold daysInMonth
  split_ifs <;> omega

/-- Every month has at most 31 days. -/
theorem daysInMonth_le (y m : Nat) : daysInMonth y m ≤ 31 := by
  unfold daysInMonth
  split_ifs <;> omega

/-- Adding a sum of days is adding them in sequence. -/
theorem addDays_add (d : SimpleDate) (a b : Nat) :
    addDays d (a + b) = addDays (addDays d a) b := by
  induction a generalizing d with
  | zero => rw [Nat.zero_add]; rfl
  | succ n ih =>
      have hr : n + 1 + b = (n + b) + 1 := by omega
      rw [hr]
      show addDays (nextDay d) (n + b) = addDays (addDays (nextDay d) n) b
      exact ih (nextDay d)

/-- Day addition that stays inside the month just moves the day field. -/
theorem addDays_within (k : Nat) (y m day : Nat)
    (h : day + k ≤ daysInMonth y m) :
    addDays ⟨y, m, day⟩ k = ⟨y, m, day + k⟩ := by
  induction k generalizing day with
  | zero => rfl
  | succ n ih =>
      show addDays (nextDay ⟨y, m, day⟩) n = _
      have hlt : day < daysInMonth y m := by omega
      rw [show nextDay ⟨y, m, day⟩ = ⟨y, m, day + 1⟩ from by
        unfold nextDay; rw [if_pos hlt]]
      rw [ih (day + 1) (by omega)]
      congr 1
      omega

/-- Adding 32 days to the first of a month lands in the following month
(wrapping December into January of the next year). -/
theorem addDays_32_from_first (y m : Nat) (hm1 : 1 ≤ m) (hm2 : m ≤ 12) :
    addDays ⟨y, m, 1⟩ 32 =
      if m = 12 then (⟨y + 1, 1, 33 - daysInMonth y 12⟩ : SimpleDate)
      else ⟨y, m + 1, 33 - daysInMonth y m⟩ := by
  have h28 := daysInMonth_ge y m
  have h31 := daysInMonth_le y m
  rw [show 32 = (daysInMonth y m - 1) + (33 - daysInMonth y m) from by omega]
  rw [addDays_add]
  rw [addDays_within (daysInMonth y m - 1) y m 1 (by omega)]
  rw [show 1 + (daysInMonth y m - 1) = daysInMonth y m from by omega]
  rw [show 33 - daysInMonth y m = (32 - daysInMonth y m) + 1 from by omega]
  show addDays (nextDay ⟨y, m, daysInMonth y m⟩) (32 - daysInMonth y m) = _
  by_cases h12 : m = 12
  · subst h12
    rw [show nextDay ⟨y, 12, daysInMonth y 12⟩ = ⟨y + 1, 1, 1⟩ from by
      unfold nextDay; dsimp only; rw [if_neg (by omega), if_neg (by omega)]]
    rw [addDays_within (32 - daysInMonth y 12) (y + 1) 1 1
      (by have := daysInMonth_ge (y + 1) 1; omega)]
    rw [if_pos rfl]
    congr 1
  · have hlt : m < 12 := by omega
    rw [show nextDay ⟨y, m, daysInMonth y m⟩ = ⟨y, m + 1, 1⟩ from by
      unfold nextDay; dsimp only; rw [if_neg (by omega), if_pos hlt]]
    rw [addDays_within (32 - daysInMonth y m) y (m + 1) 1
      (by have := daysInMonth_ge y (m + 1); omega)]
    rw [if_neg h12]
    congr 1
    omega

/-- C7: `get_next_month_info` is day-sensitive — on the first day of the
month it resolves to that date's own month, and on any later day it
resolves to the following calendar month (December rolling into January of
the next year), always formatted as the zero-padded `YYYY-MM` key. -/
theorem C7_resolve_upcoming_day_sensitive (d : SimpleDate)
    (hm1 : 1 ≤ d.month) (hm2 : d.month ≤ 12) :
    (d.day = 1 → get_next_month_str d = monthKey d.year d.month) ∧
    (1 < d.day → get_next_month_str d =
      if d.month = 12 then monthKey (d.year + 1) 1
      else monthKey d.year (d.month + 1)) := by
  constructor
  · intro h
    simp [get_next_month_str, h]
  · intro h
    have hne : ¬ d.day = 1 := by omega
    simp only [get_next_month_str, if_neg hne]
    rw [addDays_32_from_first d.year d.month hm1 hm2]
    by_cases h12 : d.month = 12 <;> simp [h12]

/-- Witness for C7 at the spec's own examples: 2025-09-01 resolves to
`2025-09`, 2025-09-15 resolves to `2025-10`. -/
theorem C7_resolve_upcoming_day_sensitive_witness :
    get_next_month_str ⟨2025, 9, 1⟩ = "2025-09" ∧
    get_next_month_str ⟨2025, 9, 15⟩ = "2025-10" := by
  have ha := (C7_resolve_upcoming_day_sensitive ⟨2025, 9, 1⟩
    (by decide) (by decide)).1 rfl
  have hb := (C7_resolve_upcoming_day_sensitive ⟨2025, 9, 15⟩
    (by decide) (by decide)).2 (by decide)
  refine ⟨?_, ?_⟩
  · rw [ha]; decide
  · rw [hb]; decide

/-- C6 counterexample: the claim says that when the pointer already
designates the resolved upcoming bucket, `checkTransition` is a no-op; at
2025-09-01T03:00 with the pointer already at `2025-09` and that bucket
holding accumulated data, the code still reports `month_transition`,
rewrites the designation, and regenerates the bucket document from
all-zero initial data — destroying the accumulated totals. -/
theorem C6_counterexample :
    (check_and_create_next_month_report ⟨2025, 9, 1, 3⟩
      ⟨some "2025-09",
       [("2025-09", { zeroData with total_itas := 7558, draw_count := 3 })]⟩).2 =
      "month_transition" ∧
    List.lookup "2025-09"
      (check_and_create_next_month_report ⟨2025, 9, 1, 3⟩
        ⟨some "2025-09",
         [("2025-09", { zeroData with total_itas := 7558, draw_count := 3 })]⟩).1.store =
      some zeroData ∧
    (check_and_create_next_month_report ⟨2025, 9, 1, 3⟩
      ⟨some "2025-09",
       [("2025-09", { zeroData with total_itas := 7558, draw_count := 3 })]⟩).1 ≠
      ⟨some "2025-09",
       [("2025-09", { zeroData with total_itas := 7558, draw_count := 3 })]⟩ := by
  refine ⟨?_, ?_, ?_⟩ <;> decide

/-- C6 as amended: `check_and_create_next_month_report` performs the
transition exactly when `now.day = 1` and `now.hour < 6` — with no
comparison of the upcoming bucket against the current pointer: it then
unconditionally re-creates the upcoming month's bucket from all-zero
initial data and rewrites the pointer (even when the pointer is already
there); in every other case it is a no-op returning
`no_transition_needed`. -/
theorem C6_transition_on_window_only (now : DateTime) (st : MgrState) :
    (now.day = 1 → now.hour < 6 →
      check_and_create_next_month_report now st =
        ({ pointer := some (monthKey now.year now.month)
         , store := insertStore (monthKey now.year now.month) zeroData st.store },
         "month_transition")) ∧
    (¬ (now.day = 1 ∧ now.hour < 6) →
      check_and_create_next_month_report now st = (st, "no_transition_needed")) := by
  constructor
  · intro h1 h2
    simp only [check_and_create_next_month_report]
    rw [if_pos ⟨h1, h2⟩]
    simp [get_next_month_str, DateTime.toDate, h1]
  · intro h
    simp only [check_and_create_next_month_report]
    rw [if_neg h]

/-- Witness for C6's amended statement: a transition inside the window and
a no-op outside it (2025-09-01T08:00, as in the spec's scenario). -/
theorem C6_transition_on_window_only_witness :
    check_and_create_next_month_report ⟨2025, 9, 1, 3⟩ ⟨some "2025-08", []⟩ =
      (⟨some "2025-09", [("2025-09", zeroData)]⟩, "month_transition") ∧
    check_and_create_next_month_report ⟨2025, 9, 1, 8⟩ ⟨some "2025-09", []⟩ =
      (⟨some "2025-09", []⟩, "no_transition_needed") := by
  have ha := (C6_transition_on_window_only ⟨2025, 9, 1, 3⟩
    ⟨some "2025-08", []⟩).1 rfl (by decide)
  have hb := (C6_transition_on_window_only ⟨2025, 9, 1, 8⟩
    ⟨some "2025-09", []⟩).2 (by decide)
  refine ⟨?_, hb⟩
  rw [ha]; decide

/-- C8: `get_current_report_info` returns an existing designation exactly
as stored, with no staleness validation against the current calendar month
and no state change; only when no designation exists does it designate the
current month — creating that month's bucket from all-zero initial data
when it is absent, and leaving the store untouched when the bucket already
exists. -/
theorem C8_get_current_no_staleness_check (now : DateTime) (st : MgrState) :
    (∀ p, st.pointer = some p → get_current_report_info now st = (p, st)) ∧
    (st.pointer = none →
      (get_current_report_info now st).1 = monthKey now.year now.month ∧
      (get_current_report_info now st).2.pointer =
        some (monthKey now.year now.month) ∧
      (List.lookup (monthKey now.year now.month) st.store = none →
        (get_current_report_info now st).2.store =
          insertStore (monthKey now.year now.month) zeroData st.store) ∧
      (∀ b, List.lookup (monthKey now.year now.month) st.store = some b →
        (get_current_report_info now st).2.store = st.store)) := by
  constructor
  · intro p hp
    simp [get_current_report_info, hp]
  · intro hp
    simp only [get_current_report_info, hp]
    cases hl : List.lookup (monthKey now.year now.month) st.store <;> simp [hl]

/-- Witness for C8: a designation of `2025-01` is returned unchanged in
September (stale, no correction); with no designation, the September
bucket is created zeroed and designated. -/
theorem C8_get_current_no_staleness_check_witness :
    get_current_report_info ⟨2025, 9, 15, 12⟩ ⟨some "2025-01", []⟩ =
      ("2025-01", ⟨some "2025-01", []⟩) ∧
    (get_current_report_info ⟨2025, 9, 15, 12⟩ ⟨none, []⟩).1 = "2025-09" ∧
    (get_current_report_info ⟨2025, 9, 15, 12⟩ ⟨none, []⟩).2.pointer =
      some "2025-09" ∧
    (get_current_report_info ⟨2025, 9, 15, 12⟩ ⟨none, []⟩).2.store =
      [("2025-09", zeroData)] := by
  have h0 := (C8_get_current_no_staleness_check ⟨2025, 9, 15, 12⟩
    ⟨some "2025-01", []⟩).1 "2025-01" rfl
  have h1 := (C8_get_current_no_staleness_check ⟨2025, 9, 15, 12⟩ ⟨none, []⟩).2 rfl
  refine ⟨h0, ?_, ?_, ?_⟩
  · rw [h1.1]; decide
  · rw [h1.2.1]; decide
  · rw [h1.2.2.1 (by decide)]; decide

/-- C10: re-extracting aggregate state from a rendered report recovers only
four fields — the first four `data-target` numbers populate `total_itas`,
`healthcare`, `pnp_itas`, `cec_itas` in that positional order — and for
every input all remaining fields (`fsw_itas`, `fst_itas`,
`category_based_total`, `french_speaking`, `stem`, `trade`, `education`,
`agriculture`, `draw_count`, `latest_crs`) come back zero, so their
accumulated values do not carry forward. -/
theorem C10_extract_recovers_only_four_fields (content : String) :
    (extract_current_data content).fsw_itas = 0 ∧
    (extract_current_data content).fst_itas = 0 ∧
    (extract_current_data content).category_based_total = 0 ∧
    (extract_current_data content).french_speaking = 0 ∧
    (extract_current_data content).stem = 0 ∧
    (extract_current_data content).trade = 0 ∧
    (extract_current_data content).education = 0 ∧
    (extract_current_data content).agriculture = 0 ∧
    (extract_current_data content).draw_count = 0 ∧
    (extract_current_data content).latest_crs = 0 ∧
    (∀ a b e f rest, findTargets content = a :: b :: e :: f :: rest →
      extract_current_data content =
        { zeroData with total_itas := (a : Int), healthcare := (b : Int)
                      , pnp_itas := (e : Int), cec_itas := (f : Int) }) := by
  unfold extract_current_data
  cases h1 : findTargets content with
  | nil =>
      refine ⟨rfl, rfl, rfl, rfl, rfl, rfl, rfl, rfl, rfl, rfl, ?_⟩
      intro a b e f rest he
      cases he
  | cons a l1 =>
      cases l1 with
      | nil =>
          refine ⟨rfl, rfl, rfl, rfl, rfl, rfl, rfl, rfl, rfl, rfl, ?_⟩
          intro a b e f rest he
          cases he
      | cons b l2 =>
          cases l2 with
          | nil =>
              refine ⟨rfl, rfl, rfl, rfl, rfl, rfl, rfl, rfl, rfl, rfl, ?_⟩
              intro a b e f rest he
              cases he
          | cons e l3 =>
              cases l3 with
              | nil =>
                  refine ⟨rfl, rfl, rfl, rfl, rfl, rfl, rfl, rfl, rfl, rfl, ?_⟩
                  intro a b e f rest he
                  cases he
              | cons f l4 =>
                  refine ⟨rfl, rfl, rfl, rfl, rfl, rfl, rfl, rfl, rfl, rfl, ?_⟩
                  intro a2 b2 e2 f2 rest2 he
                  simp only [List.cons.injEq] at he
                  obtain ⟨rfl, rfl, rfl, rfl, -⟩ := he
                  rfl

/-- Witness for C10 at a concrete rendered fragment carrying the July
report's four stat numbers. -/
theorem C10_extract_recovers_only_four_fields_witness :
    findTargets
        "<div data-target=\"7558\"/><div data-target=\"4000\"/><div data-target=\"3558\"/><div data-target=\"3000\"/>" =
      [7558, 4000, 3558, 3000] ∧
    extract_current_data
        "<div data-target=\"7558\"/><div data-target=\"4000\"/><div data-target=\"3558\"/><div data-target=\"3000\"/>" =
      { zeroData with total_itas := 7558, healthcare := 4000
                    , pnp_itas := 3558, cec_itas := 3000 } := by
  refine ⟨by decide, ?_⟩
  obtain ⟨-, -, -, -, -, -, -, -, -, -, hpos⟩ :=
    C10_extract_recovers_only_four_fields
      "<div data-target=\"7558\"/><div data-target=\"4000\"/><div data-target=\"3558\"/><div data-target=\"3000\"/>"
  exact hpos 7558 4000 3558 3000 [] (by decide)

end ImmiWatch
